import Mathlib

/-!
Verification of the cold-usb wallet frontend's presentation logic against its
design specification.  The TypeScript source is shallowly embedded: JS strings
become Lean `String`s, regex character-class tests become character-range
predicates over the string's characters, React component state becomes explicit
state records, and each event handler becomes a pure state-transition function
(asynchronous backend results are passed in as `Except` values).
-/

/-! ## Password policy evaluator (src/app/src/utils/validation.ts) -/

def PASSWORD_MIN_LENGTH : Nat := 12

/-- Character class `[A-Z]`. -/
def isUpperAZ (c : Char) : Bool := 'A' ≤ c && c ≤ 'Z'

/-- Character class `[a-z]`. -/
def isLowerAZ (c : Char) : Bool := 'a' ≤ c && c ≤ 'z'

/-- Character class `[0-9]`. -/
def isDigit09 (c : Char) : Bool := '0' ≤ c && c ≤ '9'

/-- Character class `[A-Za-z0-9]`. -/
def isAlphaNumAZ09 (c : Char) : Bool := isUpperAZ c || isLowerAZ c || isDigit09 c

/-- `passwordRules.minLength`: `password.length >= PASSWORD_MIN_LENGTH`. -/
def ruleMinLength (password : String) : Bool :=
  PASSWORD_MIN_LENGTH ≤ password.length

/-- `passwordRules.hasUppercase`: `/[A-Z]/.test(password)`. -/
def ruleHasUppercase (password : String) : Bool :=
  password.toList.any isUpperAZ

/-- `passwordRules.hasLowercase`: `/[a-z]/.test(password)`. -/
def ruleHasLowercase (password : String) : Bool :=
  password.toList.any isLowerAZ

/-- `passwordRules.hasNumber`: `/[0-9]/.test(password)`. -/
def ruleHasNumber (password : String) : Bool :=
  password.toList.any isDigit09

/-- `passwordRules.hasSpecial`: `/[^A-Za-z0-9]/.test(password)`. -/
def ruleHasSpecial (password : String) : Bool :=
  password.toList.any (fun c => !(isAlphaNumAZ09 c))

/-- Return type of `getPasswordValidationState`. -/
structure PasswordValidationState where
  minLength : Bool
  hasUppercase : Bool
  hasLowercase : Bool
  hasNumber : Bool
  hasSpecial : Bool
  isValid : Bool
  deriving Repr, DecidableEq

/-- `getPasswordValidationState` from validation.ts: evaluates the five rules
and the aggregate `isValid`, which conjoins only the first four. -/
def getPasswordValidationState (password : String) : PasswordValidationState :=
  { minLength := ruleMinLength password
    hasUppercase := ruleHasUppercase password
    hasLowercase := ruleHasLowercase password
    hasNumber := ruleHasNumber password
    hasSpecial := ruleHasSpecial password
    isValid := ruleMinLength password && ruleHasUppercase password &&
      ruleHasLowercase password && ruleHasNumber password }

/-- Return type of `getPasswordStrength`. -/
structure PasswordStrength where
  score : Nat
  label : String
  color : String
  deriving Repr, DecidableEq

/-- `getPasswordStrength` from validation.ts. -/
def getPasswordStrength (password : String) : PasswordStrength :=
  if password.length = 0 then
    { score := 0, label := "", color := "" }
  else if password.length < 8 then
    { score := 1, label := "Too short", color := "text-alert-red" }
  else
    let score :=
      (if ruleMinLength password then 1 else 0) +
      (if ruleHasUppercase password then 1 else 0) +
      (if ruleHasLowercase password then 1 else 0) +
      (if ruleHasNumber password then 1 else 0) +
      (if ruleHasSpecial password then 1 else 0) +
      (if 16 ≤ password.length then 1 else 0)
    if score < 3 then { score := score, label := "Weak", color := "text-alert-red" }
    else if score < 4 then { score := score, label := "Fair", color := "text-bitcoin-orange" }
    else if score < 5 then { score := score, label := "Good", color := "text-terminal-green" }
    else { score := score, label := "Strong", color := "text-terminal-green" }

/-! ## JS string primitives used by the flows

JavaScript's `trim()` and `toLowerCase()` are modelled directly on the
character list (ASCII case mapping; the wallet's seed words and messages are
ASCII).  These definitions reduce inside the kernel, unlike the iterator-based
string functions of the Lean core library. -/

/-- ASCII case mapping of `toLowerCase()`. -/
def jsToLowerChar (c : Char) : Char :=
  if 'A' ≤ c ∧ c ≤ 'Z' then Char.ofNat (c.toNat + 32) else c

/-- JS `s.toLowerCase()`. -/
def jsToLower (s : String) : String :=
  ⟨s.data.map jsToLowerChar⟩

/-- JS `s.trim()`: strip leading and trailing whitespace. -/
def jsTrim (s : String) : String :=
  ⟨((s.data.dropWhile Char.isWhitespace).reverse.dropWhile Char.isWhitespace).reverse⟩

/-! ## Create-wallet onboarding flow (CreateWallet component) -/

/-- Steps of the create-wallet flow, from `type Step` in CreateWallet. -/
inductive CreateStep where
  | options
  | passphraseStep
  | displaySeed
  | confirmSeed
  | passwordStep
  | creating
  deriving Repr, DecidableEq

/-- `interface ConfirmWord { position: number; word: string }`. -/
structure ConfirmWord where
  position : Nat
  word : String
  deriving Repr, DecidableEq

/-- The component state of CreateWallet that the confirm-seed logic touches. -/
structure CreateWalletState where
  step : CreateStep
  seedWords : List String
  confirmWords : List ConfirmWord
  userConfirmWords : List String
  error : String
  deriving Repr, DecidableEq

/-- One iteration of `positions.add(...)` on a JS `Set` kept in insertion
order: adding an element already present leaves the set unchanged. -/
def insertDraw (positions : List Nat) (d : Nat) : List Nat :=
  if d ∈ positions then positions else positions ++ [d]

/-- The `while (positions.size < 3) positions.add(draw)` loop of the
confirm-seed effect, consuming a finite supply of random draws; `none` when
the supply is exhausted before three distinct positions are collected. -/
def samplePositionsAux : List Nat → List Nat → Option (List Nat)
  | [], positions => if 3 ≤ positions.length then some positions else none
  | d :: rest, positions =>
      if 3 ≤ positions.length then some positions
      else samplePositionsAux rest (insertDraw positions d)

def sampleConfirmPositions (draws : List Nat) : Option (List Nat) :=
  samplePositionsAux draws []

/-- The confirm-seed effect body: sample three distinct positions, sort them
ascending (`Array.from(positions).sort((a, b) => a - b)`), and pair each with
the seed word at that position. -/
def confirmTargets (seedWords : List String) (draws : List Nat) :
    Option (List ConfirmWord) :=
  (sampleConfirmPositions draws).map fun positions =>
    (List.insertionSort (· ≤ ·) positions).map fun pos =>
      { position := pos, word := seedWords.getD pos "" }

/-- The guarded React effect: it only runs its body on the confirm-seed step
while `confirmWords` is still empty, so the selection is never resampled. -/
def confirmSeedEffect (st : CreateWalletState) (draws : List Nat) :
    CreateWalletState :=
  if st.step = CreateStep.confirmSeed ∧ st.confirmWords = [] then
    match confirmTargets st.seedWords draws with
    | some targets => { st with confirmWords := targets }
    | none => st
  else st

/-- The `isValid` predicate of `handleConfirmSeed`: every entered word,
trimmed and lowercased, equals the target word lowercased. -/
def confirmInputsMatch (st : CreateWalletState) : Bool :=
  st.confirmWords.enum.all fun p =>
    jsToLower (jsTrim (st.userConfirmWords.getD p.1 "")) == jsToLower p.2.word

/-- `handleConfirmSeed` from CreateWallet: advance to the password step and
clear the error on a full match, otherwise stay put and set a fixed generic
mismatch message. -/
def handleConfirmSeed (st : CreateWalletState) : CreateWalletState :=
  if confirmInputsMatch st then
    { st with step := CreateStep.passwordStep, error := "" }
  else
    { st with error := "Words do not match. Please try again." }

/-- Twelve concrete seed words used to instantiate the onboarding theorems. -/
def sampleSeed : List String :=
  ["abandon", "ability", "able", "about", "above", "absent",
   "absorb", "abstract", "absurd", "abuse", "access", "accident"]

/-- A concrete confirm-seed state whose targets are already selected. -/
def sampleConfirmState : CreateWalletState :=
  { step := CreateStep.confirmSeed
    seedWords := sampleSeed
    confirmWords := [{ position := 2, word := "able" },
                     { position := 5, word := "absent" },
                     { position := 9, word := "abuse" }]
    userConfirmWords := ["able", "absent", "abuse"]
    error := "" }

/-- A confirm-seed state whose first answer carries leading whitespace: the
code trims it away, so confirmation still succeeds. -/
def paddedConfirmState : CreateWalletState :=
  { sampleConfirmState with userConfirmWords := [" able", "absent", "abuse"] }

/-! ## Transaction signing flow (SigningFlow component) -/

/-- Steps of the signing flow, from `type Step` in SigningFlow. -/
inductive SignStep where
  | input
  | review
  | signingStep
  | exportStep
  deriving Repr, DecidableEq

/-- `type InputMode = 'scan' | 'paste'`. -/
inductive InputMode where
  | scan
  | paste
  deriving Repr, DecidableEq

/-- `'base64' | 'hex'`. -/
inductive PSBTFormat where
  | base64
  | hex
  deriving Repr, DecidableEq

/-- `interface PSBTInput` from the transaction types (amounts in satoshis). -/
structure PSBTInputItem where
  txid : String
  vout : Nat
  amount : Int
  deriving Repr, DecidableEq

/-- `interface PSBTOutput` from the transaction types. -/
structure PSBTOutputItem where
  address : String
  amount : Int
  is_change : Bool
  deriving Repr, DecidableEq

/-- `interface PSBTDetails` (the JS float `fee_rate`, used only for display,
is omitted: no claim touches it). -/
structure PSBTDetails where
  inputs : List PSBTInputItem
  outputs : List PSBTOutputItem
  fee : Int
  total_input : Int
  total_output : Int
  deriving Repr, DecidableEq

/-- `interface SignedPSBTResult`. -/
structure SignedPSBTResult where
  signed_psbt : String
  is_finalized : Bool
  transaction_hex : Option String
  deriving Repr, DecidableEq

/-- The component state of SigningFlow. -/
structure SigningState where
  step : SignStep
  inputMode : InputMode
  psbtInput : String
  psbtFormat : PSBTFormat
  psbtDetails : Option PSBTDetails
  signedResult : Option SignedPSBTResult
  error : String
  loading : Bool
  deriving Repr, DecidableEq

/-- The `useState` initial values of SigningFlow. -/
def initialSigningState : SigningState :=
  { step := SignStep.input
    inputMode := InputMode.scan
    psbtInput := ""
    psbtFormat := PSBTFormat.base64
    psbtDetails := none
    signedResult := none
    error := ""
    loading := false }

/-- Character class `[0-9a-fA-F]`. -/
def isHexDigit (c : Char) : Bool :=
  ('0' ≤ c && c ≤ '9') || ('a' ≤ c && c ≤ 'f') || ('A' ≤ c && c ≤ 'F')

/-- The test `/^[0-9a-fA-F]+$/.test(s)`: non-empty and hex digits only. -/
def regexHexTest (s : String) : Bool :=
  !s.data.isEmpty && s.data.all isHexDigit

/-- The auto-detection of `handleParsePSBTFromData`:
`/^[0-9a-fA-F]+$/.test(trimmed) ? 'hex' : 'base64'`. -/
def detectFormat (data : String) : PSBTFormat :=
  if regexHexTest (jsTrim data) then PSBTFormat.hex else PSBTFormat.base64

/-- The `format` field of the `parse_psbt` request issued by
`handleParsePSBTFromData` (the QR-scan entry path). -/
def scanParseRequestFormat (data : String) : PSBTFormat :=
  detectFormat data

/-- The `format` field of the `parse_psbt` request issued by
`handleParsePSBT` (the paste entry path): the user-selected radio value. -/
def pasteParseRequestFormat (st : SigningState) : PSBTFormat :=
  st.psbtFormat

/-- `handleParsePSBTFromData`: trim, auto-detect the format, store both, then
parse; the backend's verdict arrives as the `parseResult` argument. -/
def handleParsePSBTFromData (st : SigningState) (data : String)
    (parseResult : Except String PSBTDetails) : SigningState :=
  let st1 := { st with
    loading := true
    error := ""
    psbtFormat := detectFormat data
    psbtInput := jsTrim data }
  match parseResult with
  | Except.ok details =>
      { st1 with psbtDetails := some details, step := SignStep.review, loading := false }
  | Except.error e =>
      { st1 with error := "Failed to parse PSBT: " ++ e, loading := false }

/-- `handleParsePSBT` (paste path): parses `psbtInput` with the user-selected
`psbtFormat`; no auto-detection happens here. -/
def handleParsePSBT (st : SigningState)
    (parseResult : Except String PSBTDetails) : SigningState :=
  let st1 := { st with loading := true, error := "" }
  match parseResult with
  | Except.ok details =>
      { st1 with psbtDetails := some details, step := SignStep.review, loading := false }
  | Except.error e =>
      { st1 with error := "Failed to parse PSBT: " ++ e, loading := false }

/-- `handleSignPSBT`: on success store the result and move to export; on
failure surface a prefixed message and stay on the current step. -/
def handleSignPSBT (st : SigningState)
    (result : Except String SignedPSBTResult) : SigningState :=
  let st1 := { st with loading := true, error := "" }
  match result with
  | Except.ok r =>
      { st1 with signedResult := some r, step := SignStep.exportStep }
  | Except.error e =>
      { st1 with error := "Failed to sign PSBT: " ++ e, loading := false }

/-! ## Unlock screen (UnlockWallet component) -/

/-- The component state of UnlockWallet that `handleUnlock` touches. -/
structure UnlockState where
  password : String
  error : String
  loading : Bool
  navigatedTo : Option String
  deriving Repr, DecidableEq

/-- `handleUnlock`: on success navigate to the dashboard; on failure show the
fixed message `Invalid password. Please try again.` (the caught backend error
is discarded), clear the busy flag and keep the entered password. -/
def handleUnlock (st : UnlockState) (result : Except String Unit) : UnlockState :=
  let st1 := { st with loading := true, error := "" }
  match result with
  | Except.ok _ => { st1 with navigatedTo := some "/dashboard" }
  | Except.error _ =>
      { st1 with error := "Invalid password. Please try again.", loading := false }

/-- A concrete unlock-screen state. -/
def sampleUnlockState : UnlockState :=
  { password := "hunter2hunter2", error := "", loading := false, navigatedTo := none }

/-! ## Import flow bulk paste (ImportWallet component) -/

/-- The ImportWallet state the paste handler touches. -/
structure ImportWordsState where
  wordCount : Nat
  words : List String
  deriving Repr, DecidableEq

/-- Maximal runs of non-whitespace characters, accumulator style. -/
def wsTokensAux : List Char → List Char → List (List Char)
  | [], acc => if acc.isEmpty then [] else [acc.reverse]
  | c :: rest, acc =>
      if c.isWhitespace then
        if acc.isEmpty then wsTokensAux rest []
        else acc.reverse :: wsTokensAux rest []
      else wsTokensAux rest (c :: acc)

/-- JS `s.split(/\s+/)` as applied to an already-trimmed string: the maximal
non-whitespace runs, except that the empty string yields `[""]`. -/
def jsSplitWs (s : String) : List String :=
  if s.data.isEmpty then [""]
  else (wsTokensAux s.data []).map fun cs => ⟨cs⟩

/-- The token list of `handlePaste`:
`pastedText.trim().toLowerCase().split(/\s+/)`. -/
def pasteTokens (pastedText : String) : List String :=
  jsSplitWs (jsToLower (jsTrim pastedText))

/-- `handlePaste` from ImportWallet: at least 24 tokens switch to 24-word
mode, 12–23 tokens switch to 12-word mode, fewer than 12 tokens are ignored. -/
def handlePaste (st : ImportWordsState) (pastedText : String) : ImportWordsState :=
  let pastedWords := pasteTokens pastedText
  if 12 ≤ pastedWords.length then
    let count := if 24 ≤ pastedWords.length then 24 else 12
    { wordCount := count
      words := ((pastedWords.take count) ++ List.replicate (24 - count) "").take 24 }
  else st

/-! ## Route guard (App component) -/

/-- The route paths mentioned by the App route table; `otherRoute` stands for
any path matched only by the `*` catch-alls. -/
inductive RoutePath where
  | root
  | createRoute
  | importRoute
  | unlockRoute
  | dashboardRoute
  | addressesRoute
  | signRoute
  | settingsRoute
  | otherRoute (s : String)
  deriving Repr, DecidableEq

/-- What the route table renders for a path, after following `Navigate`
redirects; `notFound` is never produced, witnessing that no 404 exists. -/
inductive Screen where
  | loading
  | walletSetup
  | createWallet
  | importWallet
  | unlockWallet
  | walletDashboard
  | addressManager
  | signingFlow
  | settingsScreen
  | notFound
  deriving Repr, DecidableEq

/-- The App route table: loading while existence is unknown; setup routes with
`*` redirecting to `/` when no wallet exists; `/unlock` plus a `*` redirect to
`/unlock` when locked; the four main screens with `*` redirecting to
`/dashboard` when unlocked. -/
def resolveRoute (walletExists : Option Bool) (isLocked : Bool) :
    RoutePath → Screen
  | p =>
    match walletExists with
    | none => Screen.loading
    | some false =>
      match p with
      | RoutePath.root => Screen.walletSetup
      | RoutePath.createRoute => Screen.createWallet
      | RoutePath.importRoute => Screen.importWallet
      | _ => Screen.walletSetup
    | some true =>
      match p with
      | RoutePath.unlockRoute => Screen.unlockWallet
      | _ =>
        if isLocked then Screen.unlockWallet
        else
          match p with
          | RoutePath.dashboardRoute => Screen.walletDashboard
          | RoutePath.addressesRoute => Screen.addressManager
          | RoutePath.signRoute => Screen.signingFlow
          | RoutePath.settingsRoute => Screen.settingsScreen
          | _ => Screen.walletDashboard

/-! ## Session store (walletStore) and auto-lock timer (useAutoLock) -/

/-- `interface WalletInfo` from the wallet types. -/
structure WalletInfo where
  network : String
  fingerprint : String
  created_at : String
  is_locked : Bool
  deriving Repr, DecidableEq

/-- The zustand store state `{ walletInfo, isLocked, walletExists }`. -/
structure WalletStoreState where
  walletInfo : Option WalletInfo
  isLocked : Bool
  walletExists : Option Bool
  deriving Repr, DecidableEq

/-- `lockWallet`: `set({ isLocked: true })` — a partial update that merges
into the existing store state. -/
def lockWallet (st : WalletStoreState) : WalletStoreState :=
  { st with isLocked := true }

/-- `deleteWallet`:
`set({ walletInfo: null, isLocked: true, walletExists: false })`. -/
def deleteWallet (_st : WalletStoreState) : WalletStoreState :=
  { walletInfo := none, isLocked := true, walletExists := some false }

def AUTO_LOCK_TIMEOUT : Nat := 5 * 60 * 1000

/-- The auto-lock hook's observable state: the lock flag, the pending
timeout's absolute expiry time (none when torn down), and the closure's
`lastReset` throttle timestamp (milliseconds). -/
structure AutoLockState where
  isLocked : Bool
  timer : Option Nat
  lastReset : Nat
  deriving Repr, DecidableEq

/-- Events driving the auto-lock timer: a qualifying user-activity event
(mousedown/keydown/touchstart/mousemove/scroll) at time `t`, the armed
timeout firing at its expiry time, a successful unlock (which re-runs the
effect, re-creating the throttle closure and arming the initial timer), and a
lock from any other source (which tears the listeners and timer down). -/
inductive AutoLockEvent where
  | activity (t : Nat)
  | expire (t : Nat)
  | unlockAt (t : Nat)
  | manualLock
  deriving Repr, DecidableEq

def isUnlockEvent : AutoLockEvent → Bool
  | AutoLockEvent.unlockAt _ => true
  | _ => false

/-- One transition of the auto-lock machine, from `useAutoLock`: activity is
dropped while locked (listeners removed) or within 1000 ms of the last reset
(`throttledReset`), and otherwise re-arms the 5-minute timeout; an armed
timeout that fires locks the session and clears the timer. -/
def autoLockStep (st : AutoLockState) : AutoLockEvent → AutoLockState
  | AutoLockEvent.activity t =>
      if st.isLocked then st
      else if 1000 < t - st.lastReset then
        { st with lastReset := t, timer := some (t + AUTO_LOCK_TIMEOUT) }
      else st
  | AutoLockEvent.expire t =>
      if st.isLocked = false ∧ st.timer = some t then
        { st with isLocked := true, timer := none }
      else st
  | AutoLockEvent.unlockAt t =>
      { isLocked := false, timer := some (t + AUTO_LOCK_TIMEOUT), lastReset := 0 }
  | AutoLockEvent.manualLock =>
      { st with isLocked := true, timer := none }

def runAutoLock (st : AutoLockState) (events : List AutoLockEvent) : AutoLockState :=
  events.foldl autoLockStep st

/-- Number of unlocked-to-locked transitions along a trace. -/
def lockTransitionCount (st : AutoLockState) : List AutoLockEvent → Nat
  | [] => 0
  | e :: es =>
      let st' := autoLockStep st e
      (if st.isLocked = false ∧ st'.isLocked = true then 1 else 0) +
        lockTransitionCount st' es

/-- A concrete import-words state (fresh 24-word form). -/
def sampleImportState : ImportWordsState :=
  { wordCount := 24, words := List.replicate 24 "" }

/-- A 24-token paste payload. -/
def bigPaste : String :=
  "a b c d e f g h i j k l m n o p q r s t u v w x"

/-- A 12-token paste payload. -/
def midPaste : String :=
  "alpha beta gamma delta epsilon zeta eta theta iota kappa lambda mu"

/-- A 3-token paste payload. -/
def smallPaste : String := "too few words"

/-- A concrete unlocked auto-lock state with an armed timer. -/
def sampleAutoLockState : AutoLockState :=
  { isLocked := false, timer := some 400000, lastReset := 100000 }

/-- A concrete locked auto-lock state with the timer torn down. -/
def sampleLockedState : AutoLockState :=
  { isLocked := true, timer := none, lastReset := 0 }

/-- A concrete unlock-free event trace. -/
def sampleTrace : List AutoLockEvent :=
  [AutoLockEvent.activity 101500, AutoLockEvent.expire 401500,
   AutoLockEvent.manualLock]

/-- Point total awarded by the strength function on the long-password branch:
one point per satisfied rule among the five, plus one bonus point for
length at least 16 (spec section 4.1). -/
def strengthPoints (password : String) : Nat :=
  (if ruleMinLength password then 1 else 0) +
  (if ruleHasUppercase password then 1 else 0) +
  (if ruleHasLowercase password then 1 else 0) +
  (if ruleHasNumber password then 1 else 0) +
  (if ruleHasSpecial password then 1 else 0) +
  (if 16 ≤ password.length then 1 else 0)

lemma getPasswordStrength_of_long (p : String) (h0 : ¬ p.length = 0)
    (h8 : ¬ p.length < 8) :
    getPasswordStrength p =
      (if strengthPoints p < 3 then
        { score := strengthPoints p, label := "Weak", color := "text-alert-red" }
      else if strengthPoints p < 4 then
        { score := strengthPoints p, label := "Fair", color := "text-bitcoin-orange" }
      else if strengthPoints p < 5 then
        { score := strengthPoints p, label := "Good", color := "text-terminal-green" }
      else
        { score := strengthPoints p, label := "Strong", color := "text-terminal-green" }) := by
  unfold getPasswordStrength
  rw [if_neg h0, if_neg h8]
  rfl

/-- C1: the aggregate `isValid` returned by `getPasswordValidationState` holds
exactly when the password has length at least 12 and contains an uppercase
letter, a lowercase letter and a digit; the special-character rule is reported
in the `hasSpecial` field but does not enter the aggregate. -/
theorem getPasswordValidationState_isValid_iff (p : String) :
    ((getPasswordValidationState p).isValid = true ↔
      (12 ≤ p.length ∧ (∃ c ∈ p.toList, 'A' ≤ c ∧ c ≤ 'Z') ∧
        (∃ c ∈ p.toList, 'a' ≤ c ∧ c ≤ 'z') ∧ (∃ c ∈ p.toList, '0' ≤ c ∧ c ≤ '9'))) ∧
    ((getPasswordValidationState p).hasSpecial = true ↔
      (∃ c ∈ p.toList, ¬(('A' ≤ c ∧ c ≤ 'Z') ∨ ('a' ≤ c ∧ c ≤ 'z') ∨ ('0' ≤ c ∧ c ≤ '9')))) := by
  constructor
  · simp [getPasswordValidationState, ruleMinLength, ruleHasUppercase, ruleHasLowercase,
      ruleHasNumber, isUpperAZ, isLowerAZ, isDigit09, List.any_eq_true,
      PASSWORD_MIN_LENGTH, and_assoc]
  · have hpos : ∀ c : Char, isAlphaNumAZ09 c = true ↔
        (('A' ≤ c ∧ c ≤ 'Z') ∨ ('a' ≤ c ∧ c ≤ 'z') ∨ ('0' ≤ c ∧ c ≤ '9')) := by
      intro c
      simp [isAlphaNumAZ09, isUpperAZ, isLowerAZ, isDigit09, or_assoc]
    simp only [getPasswordValidationState, ruleHasSpecial, List.any_eq_true,
      Bool.not_eq_true']
    refine exists_congr fun c => and_congr_right fun _ => ?_
    rw [← hpos c]
    exact Bool.eq_false_iff

/-- C2 (amended): the strength function maps the empty string to score 0 with
empty label, any password of length 1–7 to forced score 1 with label
"Too short", and otherwise awards one point per satisfied rule among the five
plus a bonus point for length ≥ 16, with labels Weak/Fair/Good/Strong at the
thresholds 3, 4, 5; the spec's example `"alllowercase1"` in fact scores 3
("Fair", since it satisfies minLength, lowercase and digit), while
`"Aa1!aaaaaaaaaaaa"` scores 6 ("Strong"). -/
theorem getPasswordStrength_spec (p q r : String) (hp : 8 ≤ p.length)
    (hq1 : 1 ≤ q.length) (hq2 : q.length < 8) (hr : r.length = 0) :
    getPasswordStrength r = { score := 0, label := "", color := "" } ∧
    getPasswordStrength q = { score := 1, label := "Too short", color := "text-alert-red" } ∧
    (getPasswordStrength p).score = strengthPoints p ∧
    (getPasswordStrength p).label =
      (if strengthPoints p < 3 then "Weak" else if strengthPoints p < 4 then "Fair"
        else if strengthPoints p < 5 then "Good" else "Strong") ∧
    getPasswordStrength "alllowercase1" =
      { score := 3, label := "Fair", color := "text-bitcoin-orange" } ∧
    getPasswordStrength "Aa1!aaaaaaaaaaaa" =
      { score := 6, label := "Strong", color := "text-terminal-green" } := by
  have h0 : ¬ p.length = 0 := by omega
  have h8 : ¬ p.length < 8 := by omega
  have hlong := getPasswordStrength_of_long p h0 h8
  refine ⟨?_, ?_, ?_, ?_, by decide, by decide⟩
  · unfold getPasswordStrength
    rw [if_pos hr]
  · have hq0 : ¬ q.length = 0 := by omega
    unfold getPasswordStrength
    rw [if_neg hq0, if_pos hq2]
  · rw [hlong]
    split_ifs <;> rfl
  · rw [hlong]
    split_ifs <;> rfl

/-- Witness for C2: the amended strength statement evaluated at the concrete
passwords "alllowercase1" (long), "short" (length 5) and "" (empty). -/
theorem getPasswordStrength_spec_witness :
    getPasswordStrength "" = { score := 0, label := "", color := "" } ∧
    getPasswordStrength "short" =
      { score := 1, label := "Too short", color := "text-alert-red" } ∧
    (getPasswordStrength "alllowercase1").score = strengthPoints "alllowercase1" ∧
    (getPasswordStrength "alllowercase1").label =
      (if strengthPoints "alllowercase1" < 3 then "Weak"
        else if strengthPoints "alllowercase1" < 4 then "Fair"
        else if strengthPoints "alllowercase1" < 5 then "Good" else "Strong") ∧
    getPasswordStrength "alllowercase1" =
      { score := 3, label := "Fair", color := "text-bitcoin-orange" } ∧
    getPasswordStrength "Aa1!aaaaaaaaaaaa" =
      { score := 6, label := "Strong", color := "text-terminal-green" } :=
  getPasswordStrength_spec "alllowercase1" "short" "" (by decide) (by decide)
    (by decide) (by decide)

/-- Counterexample for C2 as stated: `"alllowercase1"` does not get score 2
with label "Weak" (it gets score 3, "Fair"). -/
theorem getPasswordStrength_claim2_counterexample :
    ¬((getPasswordStrength "alllowercase1").score = 2 ∧
      (getPasswordStrength "alllowercase1").label = "Weak") := by decide

/-! ## Confirm-seed sampling (C3) and confirmation matching (C4) -/

lemma mem_insertDraw {positions : List Nat} {d x : Nat} :
    x ∈ insertDraw positions d ↔ x ∈ positions ∨ x = d := by
  by_cases h : d ∈ positions
  · simp only [insertDraw, if_pos h]
    constructor
    · exact Or.inl
    · rintro (hx | rfl)
      · exact hx
      · exact h
  · simp [insertDraw, if_neg h]

lemma nodup_insertDraw {positions : List Nat} {d : Nat} (h : positions.Nodup) :
    (insertDraw positions d).Nodup := by
  by_cases hd : d ∈ positions
  · simpa [insertDraw, hd] using h
  · rw [insertDraw, if_neg hd]
    simp [List.nodup_append, h, hd]

lemma length_insertDraw {positions : List Nat} {d : Nat} :
    (insertDraw positions d).length ≤ positions.length + 1 := by
  unfold insertDraw
  split
  · omega
  · simp

lemma samplePositionsAux_sound :
    ∀ (draws positions result : List Nat),
      samplePositionsAux draws positions = some result →
      positions.Nodup → positions.length ≤ 3 →
      result.Nodup ∧ result.length = 3 ∧
        ∀ x ∈ result, x ∈ positions ∨ x ∈ draws := by
  intro draws
  induction draws with
  | nil =>
    intro positions result h hnd hlen
    unfold samplePositionsAux at h
    by_cases hge : 3 ≤ positions.length
    · rw [if_pos hge] at h
      injection h with h'
      subst h'
      exact ⟨hnd, by omega, fun x hx => Or.inl hx⟩
    · rw [if_neg hge] at h
      exact Option.noConfusion h
  | cons d rest ih =>
    intro positions result h hnd hlen
    unfold samplePositionsAux at h
    by_cases hge : 3 ≤ positions.length
    · rw [if_pos hge] at h
      injection h with h'
      subst h'
      exact ⟨hnd, by omega, fun x hx => Or.inl hx⟩
    · rw [if_neg hge] at h
      have hlen' : (insertDraw positions d).length ≤ 3 := by
        have := @length_insertDraw positions d
        omega
      obtain ⟨h1, h2, h3⟩ := ih (insertDraw positions d) result h (nodup_insertDraw hnd) hlen'
      refine ⟨h1, h2, fun x hx => ?_⟩
      rcases h3 x hx with hx' | hx'
      · rcases mem_insertDraw.mp hx' with hx'' | rfl
        · exact Or.inl hx''
        · exact Or.inr (List.mem_cons_self _ _)
      · exact Or.inr (List.mem_cons_of_mem _ hx')

/-- C3: whenever the confirm-seed sampling loop completes on a seed of length
at least 12 with in-range draws, it yields exactly 3 pairwise-distinct
positions, presented in strictly ascending order, each paired with the seed
word at that position; and the guarded effect never resamples once
`confirmWords` is non-empty. -/
theorem confirmTargets_spec (seedWords : List String) (draws draws2 : List Nat)
    (targets : List ConfirmWord) (st : CreateWalletState)
    (_hN : 12 ≤ seedWords.length)
    (hdraws : ∀ d ∈ draws, d < seedWords.length)
    (hres : confirmTargets seedWords draws = some targets)
    (hsel : st.confirmWords ≠ []) :
    targets.length = 3 ∧
    (targets.map ConfirmWord.position).Nodup ∧
    List.Sorted (· < ·) (targets.map ConfirmWord.position) ∧
    (∀ t ∈ targets, t.position < seedWords.length ∧
      t.word = seedWords.getD t.position "") ∧
    confirmSeedEffect st draws2 = st := by
  obtain ⟨positions, hpos, htg⟩ : ∃ ps, sampleConfirmPositions draws = some ps ∧
      targets = (List.insertionSort (· ≤ ·) ps).map
        (fun pos => { position := pos, word := seedWords.getD pos "" }) := by
    unfold confirmTargets at hres
    cases hps : sampleConfirmPositions draws with
    | none => rw [hps] at hres; exact Option.noConfusion hres
    | some ps =>
      rw [hps] at hres
      exact ⟨ps, rfl, (Option.some.inj hres).symm⟩
  obtain ⟨hnd, hlen, hmem⟩ :=
    samplePositionsAux_sound draws [] positions hpos List.nodup_nil (by simp)
  have hperm : List.Perm (List.insertionSort (· ≤ ·) positions) positions :=
    List.perm_insertionSort _ _
  have hnd' : (List.insertionSort (· ≤ ·) positions).Nodup := hperm.nodup_iff.mpr hnd
  have hmap : targets.map ConfirmWord.position = List.insertionSort (· ≤ ·) positions := by
    have hcomp : (ConfirmWord.position ∘ fun pos =>
        ({ position := pos, word := seedWords.getD pos "" } : ConfirmWord)) = id := rfl
    rw [htg, List.map_map, hcomp, List.map_id]
  refine ⟨?_, ?_, ?_, ?_, ?_⟩
  · rw [htg, List.length_map, hperm.length_eq, hlen]
  · rw [hmap]
    exact hnd'
  · rw [hmap]
    exact (List.sorted_insertionSort _ _).lt_of_le hnd'
  · intro t ht
    rw [htg] at ht
    obtain ⟨pos, hpos', rfl⟩ := List.mem_map.mp ht
    have hmem' : pos ∈ positions := hperm.mem_iff.mp hpos'
    have hplt : pos < seedWords.length := by
      rcases hmem pos hmem' with h' | h'
      · simp at h'
      · exact hdraws pos h'
    exact ⟨hplt, rfl⟩
  · unfold confirmSeedEffect
    rw [if_neg fun hc => hsel hc.2]

/-- Witness for C3 at a concrete 12-word seed, draw supply [5, 2, 9] and an
already-selected state. -/
theorem confirmTargets_spec_witness :
    ([{ position := 2, word := "able" }, { position := 5, word := "absent" },
      { position := 9, word := "abuse" }] : List ConfirmWord).length = 3 ∧
    (([{ position := 2, word := "able" }, { position := 5, word := "absent" },
      { position := 9, word := "abuse" }] : List ConfirmWord).map
        ConfirmWord.position).Nodup ∧
    List.Sorted (· < ·)
      (([{ position := 2, word := "able" }, { position := 5, word := "absent" },
        { position := 9, word := "abuse" }] : List ConfirmWord).map
          ConfirmWord.position) ∧
    (∀ t ∈ ([{ position := 2, word := "able" }, { position := 5, word := "absent" },
        { position := 9, word := "abuse" }] : List ConfirmWord),
      t.position < sampleSeed.length ∧ t.word = sampleSeed.getD t.position "") ∧
    confirmSeedEffect sampleConfirmState [0, 1, 2] = sampleConfirmState :=
  confirmTargets_spec sampleSeed [5, 2, 9] [0, 1, 2]
    [{ position := 2, word := "able" }, { position := 5, word := "absent" },
     { position := 9, word := "abuse" }] sampleConfirmState
    (by decide) (by decide) (by decide) (by decide)

/-- C4 (amended): on the confirm-seed step, confirmation advances to the
password step exactly when every user-entered word, whitespace-trimmed and
case-folded, equals the corresponding target word case-folded; otherwise the
flow stays on confirm-seed with one fixed generic mismatch message (the same
literal for every failing input, so it cannot indicate which word failed),
and the rest of the state is untouched. -/
theorem handleConfirmSeed_spec (st : CreateWalletState)
    (h : st.step = CreateStep.confirmSeed) :
    ((handleConfirmSeed st).step = CreateStep.passwordStep ↔
      ∀ p ∈ st.confirmWords.enum,
        jsToLower (jsTrim (st.userConfirmWords.getD p.1 "")) = jsToLower p.2.word) ∧
    (¬(∀ p ∈ st.confirmWords.enum,
        jsToLower (jsTrim (st.userConfirmWords.getD p.1 "")) = jsToLower p.2.word) →
      (handleConfirmSeed st).step = CreateStep.confirmSeed ∧
      (handleConfirmSeed st).error = "Words do not match. Please try again.") ∧
    (handleConfirmSeed st).seedWords = st.seedWords ∧
    (handleConfirmSeed st).userConfirmWords = st.userConfirmWords ∧
    (handleConfirmSeed st).confirmWords = st.confirmWords := by
  by_cases hc : confirmInputsMatch st = true
  · have hall : ∀ p ∈ st.confirmWords.enum,
        jsToLower (jsTrim (st.userConfirmWords.getD p.1 "")) = jsToLower p.2.word := by
      simpa [confirmInputsMatch, List.all_eq_true] using hc
    exact ⟨⟨fun _ => hall, fun _ => by simp [handleConfirmSeed, hc]⟩,
      fun hn => absurd hall hn,
      by simp [handleConfirmSeed, hc], by simp [handleConfirmSeed, hc],
      by simp [handleConfirmSeed, hc]⟩
  · have hnall : ¬ ∀ p ∈ st.confirmWords.enum,
        jsToLower (jsTrim (st.userConfirmWords.getD p.1 "")) = jsToLower p.2.word := by
      simpa [confirmInputsMatch, List.all_eq_true] using hc
    have hstep : (handleConfirmSeed st).step = st.step := by
      simp [handleConfirmSeed, hc]
    refine ⟨⟨fun hp => ?_, fun hforall => absurd hforall hnall⟩,
      fun _ => ⟨by rw [hstep, h], by simp [handleConfirmSeed, hc]⟩,
      by simp [handleConfirmSeed, hc], by simp [handleConfirmSeed, hc],
      by simp [handleConfirmSeed, hc]⟩
    exact absurd (h.symm.trans (hstep.symm.trans hp)) (by decide)

/-- Witness for C4 at the concrete confirm-seed state with exact answers. -/
theorem handleConfirmSeed_spec_witness :
    ((handleConfirmSeed sampleConfirmState).step = CreateStep.passwordStep ↔
      ∀ p ∈ sampleConfirmState.confirmWords.enum,
        jsToLower (jsTrim (sampleConfirmState.userConfirmWords.getD p.1 "")) =
          jsToLower p.2.word) ∧
    (¬(∀ p ∈ sampleConfirmState.confirmWords.enum,
        jsToLower (jsTrim (sampleConfirmState.userConfirmWords.getD p.1 "")) =
          jsToLower p.2.word) →
      (handleConfirmSeed sampleConfirmState).step = CreateStep.confirmSeed ∧
      (handleConfirmSeed sampleConfirmState).error =
        "Words do not match. Please try again.") ∧
    (handleConfirmSeed sampleConfirmState).seedWords = sampleConfirmState.seedWords ∧
    (handleConfirmSeed sampleConfirmState).userConfirmWords =
      sampleConfirmState.userConfirmWords ∧
    (handleConfirmSeed sampleConfirmState).confirmWords =
      sampleConfirmState.confirmWords :=
  handleConfirmSeed_spec sampleConfirmState (by decide)

/-- Counterexample for C4 as stated: with a leading space in the first answer,
confirmation still succeeds even though the case-folded answer differs from
the case-folded target — the code also trims whitespace, which the claim's
pure case-folding equality does not allow. -/
theorem handleConfirmSeed_claim_counterexample :
    (handleConfirmSeed paddedConfirmState).step = CreateStep.passwordStep ∧
    ¬(jsToLower (paddedConfirmState.userConfirmWords.getD 0 "") =
      jsToLower (paddedConfirmState.confirmWords.getD 0
        { position := 0, word := "" }).word) := by
  decide

/-! ## Signing-flow format detection (C5) and backend-error handling (C8) -/

/-- C5 (amended): auto-detection — hex exactly when the trimmed payload is a
non-empty string of hex digits — applies to every payload routed through
`handleParsePSBTFromData` (the QR-scan entry path); the paste path instead
sends the user-selected `psbtFormat` (which defaults to base64) with no
auto-detection. -/
theorem psbtFormat_autodetect_spec (st : SigningState) (data : String)
    (r : Except String PSBTDetails) :
    ((handleParsePSBTFromData st data r).psbtFormat = PSBTFormat.hex ↔
      ((jsTrim data).data ≠ [] ∧ ∀ c ∈ (jsTrim data).data, isHexDigit c = true)) ∧
    scanParseRequestFormat data = (handleParsePSBTFromData st data r).psbtFormat ∧
    pasteParseRequestFormat st = st.psbtFormat ∧
    (handleParsePSBT st r).psbtFormat = st.psbtFormat := by
  have hfmt : (handleParsePSBTFromData st data r).psbtFormat = detectFormat data := by
    cases r <;> rfl
  have hiff : regexHexTest (jsTrim data) = true ↔
      ((jsTrim data).data ≠ [] ∧ ∀ c ∈ (jsTrim data).data, isHexDigit c = true) := by
    simp [regexHexTest, List.all_eq_true]
  refine ⟨?_, ?_, rfl, ?_⟩
  · rw [hfmt]
    unfold detectFormat
    by_cases h : regexHexTest (jsTrim data) = true
    · rw [if_pos h]
      exact iff_of_true rfl (hiff.mp h)
    · rw [if_neg h]
      exact iff_of_false (by decide) fun hc => h (hiff.mpr hc)
  · rw [hfmt]
    rfl
  · cases r <;> rfl

/-- Counterexample for C5 as stated: the all-hex payload "deadbeef" pasted
into the default signing state is sent with format base64 by the paste path,
although the claim requires it to be classified as hex on both entry paths. -/
theorem psbtFormat_claim_counterexample :
    pasteParseRequestFormat { initialSigningState with psbtInput := "deadbeef" } =
      PSBTFormat.base64 ∧
    regexHexTest (jsTrim "deadbeef") = true ∧
    PSBTFormat.base64 ≠ PSBTFormat.hex := by decide

/-- C8 (amended): a backend rejection leaves the flow on the current step with
the user's input preserved; the unlock screen replaces the backend's message
with the fixed text `Invalid password. Please try again.`, while the signing
flow surfaces the backend's message inside the prefixed text
`Failed to sign PSBT: ...`. -/
theorem backendError_spec (st : UnlockState) (sst : SigningState) (err : String) :
    (handleUnlock st (Except.error err)).error = "Invalid password. Please try again." ∧
    (handleUnlock st (Except.error err)).password = st.password ∧
    (handleUnlock st (Except.error err)).navigatedTo = st.navigatedTo ∧
    (handleUnlock st (Except.error err)).loading = false ∧
    (handleSignPSBT sst (Except.error err)).error = "Failed to sign PSBT: " ++ err ∧
    (handleSignPSBT sst (Except.error err)).step = sst.step ∧
    (handleSignPSBT sst (Except.error err)).psbtInput = sst.psbtInput ∧
    (handleSignPSBT sst (Except.error err)).psbtFormat = sst.psbtFormat :=
  ⟨rfl, rfl, rfl, rfl, rfl, rfl, rfl, rfl⟩

/-- Counterexample for C8 as stated: on a wrong password the unlock screen
does not show the backend's message verbatim — it shows its own fixed text. -/
theorem handleUnlock_verbatim_counterexample :
    (handleUnlock sampleUnlockState
      (Except.error "decryption failed: invalid key")).error ≠
      "decryption failed: invalid key" := by decide

/-! ## Import bulk paste (C6) -/

lemma handlePaste_big (st : ImportWordsState) (s : String)
    (h : 24 ≤ (pasteTokens s).length) :
    handlePaste st s = { wordCount := 24, words := (pasteTokens s).take 24 } := by
  unfold handlePaste
  rw [if_pos (show 12 ≤ (pasteTokens s).length by omega), if_pos h]
  simp [List.take_take]

lemma handlePaste_mid (st : ImportWordsState) (s : String)
    (h1 : 12 ≤ (pasteTokens s).length) (h2 : (pasteTokens s).length < 24) :
    handlePaste st s =
      { wordCount := 12
        words := ((pasteTokens s).take 12 ++ List.replicate 12 "").take 24 } := by
  unfold handlePaste
  rw [if_pos h1, if_neg (by omega)]

lemma handlePaste_small (st : ImportWordsState) (s : String)
    (h : (pasteTokens s).length < 12) :
    handlePaste st s = st := by
  unfold handlePaste
  rw [if_neg (by omega)]

/-- C6: pasting k whitespace-separated tokens into the import word step fills
the first 24 slots and switches to 24-word mode when k ≥ 24, fills the first
12 slots and switches to 12-word mode when 12 ≤ k < 24, and leaves the state
unchanged when k < 12. -/
theorem handlePaste_spec (st : ImportWordsState) (big mid small : String)
    (hbig : 24 ≤ (pasteTokens big).length)
    (hmid1 : 12 ≤ (pasteTokens mid).length)
    (hmid2 : (pasteTokens mid).length < 24)
    (hsmall : (pasteTokens small).length < 12) :
    (handlePaste st big).wordCount = 24 ∧
    (handlePaste st big).words = (pasteTokens big).take 24 ∧
    (handlePaste st mid).wordCount = 12 ∧
    (handlePaste st mid).words.take 12 = (pasteTokens mid).take 12 ∧
    handlePaste st small = st := by
  refine ⟨?_, ?_, ?_, ?_, handlePaste_small st small hsmall⟩
  · rw [handlePaste_big st big hbig]
  · rw [handlePaste_big st big hbig]
  · rw [handlePaste_mid st mid hmid1 hmid2]
  · rw [handlePaste_mid st mid hmid1 hmid2]
    have hlen12 : ((pasteTokens mid).take 12).length = 12 := by
      simp [List.length_take]
      omega
    rw [List.take_take]
    norm_num
    exact List.take_left' hlen12

/-- Witness for C6 at a 24-token, a 12-token and a 3-token paste payload. -/
theorem handlePaste_spec_witness :
    (handlePaste sampleImportState bigPaste).wordCount = 24 ∧
    (handlePaste sampleImportState bigPaste).words = (pasteTokens bigPaste).take 24 ∧
    (handlePaste sampleImportState midPaste).wordCount = 12 ∧
    (handlePaste sampleImportState midPaste).words.take 12 =
      (pasteTokens midPaste).take 12 ∧
    handlePaste sampleImportState smallPaste = sampleImportState :=
  handlePaste_spec sampleImportState bigPaste midPaste smallPaste
    (by decide) (by decide) (by decide) (by decide)

/-! ## Route guard (C7) -/

/-- C7: with no wallet, the dashboard is never exposed and only
setup/create/import are reachable, every other path resolving to the setup
screen; with an existing, locked wallet every path resolves to the unlock
screen; and no combination of session state and path ever yields a 404. -/
theorem routeGuard_spec (isLocked : Bool) (p : RoutePath) (we : Option Bool) :
    resolveRoute (some false) isLocked p ≠ Screen.walletDashboard ∧
    (resolveRoute (some false) isLocked p = Screen.walletSetup ∨
      resolveRoute (some false) isLocked p = Screen.createWallet ∨
      resolveRoute (some false) isLocked p = Screen.importWallet) ∧
    (resolveRoute (some false) isLocked p =
      (if p = RoutePath.root then Screen.walletSetup
        else if p = RoutePath.createRoute then Screen.createWallet
        else if p = RoutePath.importRoute then Screen.importWallet
        else Screen.walletSetup)) ∧
    resolveRoute (some true) true p = Screen.unlockWallet ∧
    resolveRoute we isLocked p ≠ Screen.notFound := by
  refine ⟨?_, ?_, ?_, ?_, ?_⟩
  · cases p <;> simp [resolveRoute]
  · cases p <;> simp [resolveRoute]
  · cases p <;> simp [resolveRoute]
  · cases p <;> simp [resolveRoute]
  · rcases we with _ | b
    · simp [resolveRoute]
    · cases b <;> cases p <;> cases isLocked <;> simp [resolveRoute]

/-! ## Session store frame condition (C10) -/

/-- C10: `lockWallet` sets `isLocked` and changes nothing else — the cached
wallet metadata and the existence flag survive a lock; only `deleteWallet`
clears the cached metadata. -/
theorem lockWallet_frame_spec (st : WalletStoreState) :
    (lockWallet st).isLocked = true ∧
    (lockWallet st).walletInfo = st.walletInfo ∧
    (lockWallet st).walletExists = st.walletExists ∧
    (deleteWallet st).walletInfo = none :=
  ⟨rfl, rfl, rfl, rfl⟩

/-! ## Auto-lock timer (C9) -/

lemma autoLock_locked_stays (st : AutoLockState) (e : AutoLockEvent)
    (hL : st.isLocked = true) (he : isUnlockEvent e = false) :
    (autoLockStep st e).isLocked = true := by
  cases e with
  | activity t => simp [autoLockStep, hL]
  | expire t =>
      show (if st.isLocked = false ∧ st.timer = some t then
        { st with isLocked := true, timer := none } else st).isLocked = true
      rw [if_neg (by simp [hL])]
      exact hL
  | unlockAt t => simp [isUnlockEvent] at he
  | manualLock => rfl

lemma autoLock_locked_fixed (st : AutoLockState) (e : AutoLockEvent)
    (hL : st.isLocked = true) (ht : st.timer = none) (he : isUnlockEvent e = false) :
    autoLockStep st e = st := by
  cases e with
  | activity t => simp [autoLockStep, hL]
  | expire t =>
      show (if st.isLocked = false ∧ st.timer = some t then
        { st with isLocked := true, timer := none } else st) = st
      rw [if_neg (by simp [hL])]
  | unlockAt t => simp [isUnlockEvent] at he
  | manualLock =>
      show ({ st with isLocked := true, timer := none } : AutoLockState) = st
      cases st
      simp_all

lemma runAutoLock_locked_fixed (st : AutoLockState) (tr : List AutoLockEvent)
    (hL : st.isLocked = true) (ht : st.timer = none)
    (htr : ∀ e ∈ tr, isUnlockEvent e = false) :
    runAutoLock st tr = st := by
  induction tr with
  | nil => rfl
  | cons e es ih =>
      have h1 : autoLockStep st e = st :=
        autoLock_locked_fixed st e hL ht (htr e (List.mem_cons_self _ _))
      calc runAutoLock st (e :: es) = runAutoLock (autoLockStep st e) es := rfl
        _ = runAutoLock st es := by rw [h1]
        _ = st := ih fun e' he' => htr e' (List.mem_cons_of_mem _ he')

lemma lockCount_zero_of_locked :
    ∀ (tr : List AutoLockEvent) (st : AutoLockState),
      st.isLocked = true → (∀ e ∈ tr, isUnlockEvent e = false) →
      lockTransitionCount st tr = 0 := by
  intro tr
  induction tr with
  | nil => intro st _ _; rfl
  | cons e es ih =>
      intro st hL htr
      simp only [lockTransitionCount]
      rw [if_neg (by simp [hL])]
      have hL' : (autoLockStep st e).isLocked = true :=
        autoLock_locked_stays st e hL (htr e (List.mem_cons_self _ _))
      rw [ih (autoLockStep st e) hL' fun e' he' => htr e' (List.mem_cons_of_mem _ he')]

lemma lockCount_le_one :
    ∀ (tr : List AutoLockEvent) (st : AutoLockState),
      (∀ e ∈ tr, isUnlockEvent e = false) → lockTransitionCount st tr ≤ 1 := by
  intro tr
  induction tr with
  | nil => intro st _; simp [lockTransitionCount]
  | cons e es ih =>
      intro st htr
      simp only [lockTransitionCount]
      by_cases hL' : (autoLockStep st e).isLocked = true
      · have h0 : lockTransitionCount (autoLockStep st e) es = 0 :=
          lockCount_zero_of_locked es _ hL'
            fun e' he' => htr e' (List.mem_cons_of_mem _ he')
        rw [h0]
        split <;> omega
      · rw [if_neg fun hc => hL' hc.2]
        have := ih (autoLockStep st e) fun e' he' => htr e' (List.mem_cons_of_mem _ he')
        omega

/-- C9: while unlocked, an activity event within 1000 ms of the last reset is
dropped (throttling) and an activity event later than that re-arms the
5-minute countdown; the armed timeout firing locks the session and clears the
timer; a locked session with the timer torn down is left untouched by every
activity or expiry event until an unlock; and along any unlock-free trace the
session transitions to locked at most once. -/
theorem useAutoLock_spec (st stL : AutoLockState) (t1 t2 t3 : Nat)
    (tr : List AutoLockEvent)
    (hunlocked : st.isLocked = false)
    (h1 : t1 - st.lastReset ≤ 1000)
    (h2 : 1000 < t2 - st.lastReset)
    (h3 : st.timer = some t3)
    (hL : stL.isLocked = true) (hLt : stL.timer = none)
    (htr : ∀ e ∈ tr, isUnlockEvent e = false) :
    autoLockStep st (AutoLockEvent.activity t1) = st ∧
    (autoLockStep st (AutoLockEvent.activity t2)).timer =
      some (t2 + AUTO_LOCK_TIMEOUT) ∧
    (autoLockStep st (AutoLockEvent.activity t2)).isLocked = false ∧
    AUTO_LOCK_TIMEOUT = 5 * 60 * 1000 ∧
    autoLockStep st (AutoLockEvent.expire t3) =
      { st with isLocked := true, timer := none } ∧
    runAutoLock stL tr = stL ∧
    lockTransitionCount st tr ≤ 1 := by
  refine ⟨?_, ?_, ?_, rfl, ?_, ?_, ?_⟩
  · show (if st.isLocked = true then st
      else if 1000 < t1 - st.lastReset then
        { st with lastReset := t1, timer := some (t1 + AUTO_LOCK_TIMEOUT) }
      else st) = st
    rw [if_neg (by simp [hunlocked]), if_neg (by omega)]
  · show (if st.isLocked = true then st
      else if 1000 < t2 - st.lastReset then
        { st with lastReset := t2, timer := some (t2 + AUTO_LOCK_TIMEOUT) }
      else st).timer = some (t2 + AUTO_LOCK_TIMEOUT)
    rw [if_neg (by simp [hunlocked]), if_pos h2]
  · show (if st.isLocked = true then st
      else if 1000 < t2 - st.lastReset then
        { st with lastReset := t2, timer := some (t2 + AUTO_LOCK_TIMEOUT) }
      else st).isLocked = false
    rw [if_neg (by simp [hunlocked]), if_pos h2]
    exact hunlocked
  · show (if st.isLocked = false ∧ st.timer = some t3 then
      { st with isLocked := true, timer := none } else st) =
      { st with isLocked := true, timer := none }
    rw [if_pos ⟨hunlocked, h3⟩]
  · exact runAutoLock_locked_fixed stL tr hL hLt htr
  · exact lockCount_le_one tr st htr

/-- Witness for C9 at a concrete armed state, a throttled and an effective
activity time, the armed expiry time, a locked state and an unlock-free
trace. -/
theorem useAutoLock_spec_witness :
    autoLockStep sampleAutoLockState (AutoLockEvent.activity 100500) =
      sampleAutoLockState ∧
    (autoLockStep sampleAutoLockState (AutoLockEvent.activity 102000)).timer =
      some (102000 + AUTO_LOCK_TIMEOUT) ∧
    (autoLockStep sampleAutoLockState (AutoLockEvent.activity 102000)).isLocked =
      false ∧
    AUTO_LOCK_TIMEOUT = 5 * 60 * 1000 ∧
    autoLockStep sampleAutoLockState (AutoLockEvent.expire 400000) =
      { sampleAutoLockState with isLocked := true, timer := none } ∧
    runAutoLock sampleLockedState sampleTrace = sampleLockedState ∧
    lockTransitionCount sampleAutoLockState sampleTrace ≤ 1 :=
  useAutoLock_spec sampleAutoLockState sampleLockedState 100500 102000 400000
    sampleTrace (by decide) (by decide) (by decide) (by decide) (by decide)
    (by decide) (by decide)
